import Mathlib

/-!
Shallow embedding of `src/safesearch/safe-search-vision-api.py`
(class `VideoSafeSearchAnalyzer` and `main`).

Modelling conventions:
* Python floats (`fps`, `interval_seconds`) are modelled as rationals `ℚ`.
* Python `int(x)` (truncation toward zero) is `pyInt` below, via `Int.tdiv`.
* A raised Python exception is an `Except.error` carrying the message.
* The external Vision client call (`cv2.imencode` + `safe_search_detection`,
  lines 90-98) is an injected capability `classify : α → Except String SafeSearchResult`;
  frames themselves are an abstract type `α` (their pixel content is never
  inspected by the pipeline logic).
* `datetime.now().isoformat()` is an injected `now : String`.
* File output (saving flagged frames, JSON/report files) is pure I/O with no
  influence on the returned results structure and is not modelled.
-/

/-- Equality of `Except` results is decidable (used to evaluate the embedding
on concrete inputs). -/
instance {e s : Type} [DecidableEq e] [DecidableEq s] : DecidableEq (Except e s) := fun a b =>
  match a, b with
  | .error e1, .error e2 =>
    if h : e1 = e2 then isTrue (by rw [h]) else isFalse (fun hh => h (Except.error.inj hh))
  | .error _, .ok _ => isFalse (fun hh => Except.noConfusion hh)
  | .ok _, .error _ => isFalse (fun hh => Except.noConfusion hh)
  | .ok a1, .ok a2 =>
    if h : a1 = a2 then isTrue (by rw [h]) else isFalse (fun hh => h (Except.ok.inj hh))

/-- The six likelihood values of `likelihood_names` (line 101), as an
enumeration.  `analyze_frame_safety` only ever produces these six strings, so
carrying the enumeration instead of the raw string is faithful; `Likelihood.name`
recovers the string and `Likelihood.rank` is its value in the
`likelihood_levels` dict (lines 154-157). -/
inductive Likelihood
  | UNKNOWN
  | VERY_UNLIKELY
  | UNLIKELY
  | POSSIBLE
  | LIKELY
  | VERY_LIKELY
  deriving DecidableEq

/-- Rank of a likelihood in the `likelihood_levels` dict (lines 154-157). -/
def Likelihood.rank : Likelihood → Nat
  | .UNKNOWN => 0
  | .VERY_UNLIKELY => 1
  | .UNLIKELY => 2
  | .POSSIBLE => 3
  | .LIKELY => 4
  | .VERY_LIKELY => 5

/-- The string for a likelihood, as in the `likelihood_names` list (line 101). -/
def Likelihood.name : Likelihood → String
  | .UNKNOWN => "UNKNOWN"
  | .VERY_UNLIKELY => "VERY_UNLIKELY"
  | .UNLIKELY => "UNLIKELY"
  | .POSSIBLE => "POSSIBLE"
  | .LIKELY => "LIKELY"
  | .VERY_LIKELY => "VERY_LIKELY"

/-- The `likelihood_names` list (line 101). -/
def likelihood_names : List String :=
  ["UNKNOWN", "VERY_UNLIKELY", "UNLIKELY", "POSSIBLE", "LIKELY", "VERY_LIKELY"]

/-- The `likelihood_levels` dict (lines 154-157); `none` models a `KeyError`. -/
def likelihood_levels (s : String) : Option Nat :=
  if s = "UNKNOWN" then some 0
  else if s = "VERY_UNLIKELY" then some 1
  else if s = "UNLIKELY" then some 2
  else if s = "POSSIBLE" then some 3
  else if s = "LIKELY" then some 4
  else if s = "VERY_LIKELY" then some 5
  else none

/-- `likelihood_names[n]` (lines 104-108): list indexing, `none` models the
`IndexError` raised for an out-of-range index. -/
def likelihoodAt (n : Nat) : Option Likelihood :=
  match n with
  | 0 => some .UNKNOWN
  | 1 => some .VERY_UNLIKELY
  | 2 => some .UNLIKELY
  | 3 => some .POSSIBLE
  | 4 => some .LIKELY
  | 5 => some .VERY_LIKELY
  | _ => none

/-- The five integer likelihood codes read off `response.safe_search_annotation`
(lines 98, 104-108).  In the protobuf response these five fields are plain
integers. -/
structure SafeSearchResult where
  adult : Nat
  spoof : Nat
  medical : Nat
  violence : Nat
  racy : Nat
  deriving DecidableEq

/-- The dictionary returned by `analyze_frame_safety` (lines 103-109): the five
fixed categories, each holding one of the six likelihood strings. -/
structure FrameScore where
  adult : Likelihood
  spoof : Likelihood
  medical : Likelihood
  violence : Likelihood
  racy : Likelihood
  deriving DecidableEq

/-- The closed set of categories (spec section 3). -/
inductive Category
  | adult
  | spoof
  | medical
  | violence
  | racy
  deriving DecidableEq

/-- Project a category out of a `FrameScore`. -/
def FrameScore.catOf (fr : FrameScore) : Category → Likelihood
  | .adult => fr.adult
  | .spoof => fr.spoof
  | .medical => fr.medical
  | .violence => fr.violence
  | .racy => fr.racy

/-- `analyze_frame_safety` (lines 79-109): encode the frame, call the service
(both folded into `classify`), then map each of the five integer codes through
`likelihood_names`.  An out-of-range code raises `IndexError` (the same error
whichever field is out of range, so a single match is observationally the same
as Python's left-to-right dict construction). -/
def analyze_frame_safety {α : Type} (classify : α → Except String SafeSearchResult)
    (frame : α) : Except String FrameScore :=
  match classify frame with
  | .error e => .error e
  | .ok ann =>
    match likelihoodAt ann.adult, likelihoodAt ann.spoof, likelihoodAt ann.medical,
        likelihoodAt ann.violence, likelihoodAt ann.racy with
    | some a, some s, some m, some v, some r => .ok ⟨a, s, m, v, r⟩
    | _, _, _, _, _ => .error "IndexError: list index out of range"

/-- One element of `results['frame_results']`.  The Python code appends one of
two dict shapes: on success the five category strings plus `frame_index` and
`timestamp_seconds` (lines 163-166), on failure `frame_index` and `error`
(lines 196-199).  `Option` fields model keys that may be absent from the dict. -/
structure FrameEntry where
  adult : Option Likelihood
  spoof : Option Likelihood
  medical : Option Likelihood
  violence : Option Likelihood
  racy : Option Likelihood
  frame_index : Nat
  timestamp_seconds : Option ℚ
  error : Option String
  deriving DecidableEq

/-- The successful per-frame dict (lines 163-166). -/
def okEntry (fr : FrameScore) (idx : Nat) (interval_seconds : ℚ) : FrameEntry :=
  { adult := some fr.adult
    spoof := some fr.spoof
    medical := some fr.medical
    violence := some fr.violence
    racy := some fr.racy
    frame_index := idx
    timestamp_seconds := some ((idx : ℚ) * interval_seconds)
    error := none }

/-- The per-frame error marker dict (lines 196-199). -/
def errorEntry (idx : Nat) (e : String) : FrameEntry :=
  { adult := none
    spoof := none
    medical := none
    violence := none
    racy := none
    frame_index := idx
    timestamp_seconds := none
    error := some e }

/-- An element of `results['summary']['flagged_frames']` (lines 181-185). -/
structure FlagRecord where
  frame_index : Nat
  timestamp_seconds : ℚ
  reasons : FrameEntry
  deriving DecidableEq

/-- `results['summary']` (lines 144-151). -/
structure Summary where
  max_adult : Likelihood
  max_violence : Likelihood
  max_medical : Likelihood
  max_racy : Likelihood
  max_spoof : Likelihood
  flagged_frames : List FlagRecord
  deriving DecidableEq

/-- Project the running maximum for a category out of the summary. -/
def Summary.maxOf (s : Summary) : Category → Likelihood
  | .adult => s.max_adult
  | .spoof => s.max_spoof
  | .medical => s.max_medical
  | .violence => s.max_violence
  | .racy => s.max_racy

/-- The initial summary (lines 144-151): every maximum starts at
`VERY_UNLIKELY`, the flagged list starts empty. -/
def initialSummary : Summary :=
  { max_adult := .VERY_UNLIKELY
    max_violence := .VERY_UNLIKELY
    max_medical := .VERY_UNLIKELY
    max_racy := .VERY_UNLIKELY
    max_spoof := .VERY_UNLIKELY
    flagged_frames := [] }

/-- The whole `results` dict (lines 138-152). -/
structure AnalysisResults where
  video_path : String
  total_frames_analyzed : Nat
  interval_seconds : ℚ
  timestamp : String
  frame_results : List FrameEntry
  summary : Summary
  deriving DecidableEq

/-- One comparison of the maxima-update loop (lines 169-171):
`if likelihood_levels[frame] > likelihood_levels[max]: max = frame`. -/
def maxLike (cur new : Likelihood) : Likelihood :=
  if cur.rank < new.rank then new else cur

/-- The maxima-update loop (lines 168-171).  The code updates the five keys one
after the other; the fields are independent, so the simultaneous record update
is the same. -/
def updateMaxima (s : Summary) (fr : FrameScore) : Summary :=
  { s with
    max_adult := maxLike s.max_adult fr.adult
    max_violence := maxLike s.max_violence fr.violence
    max_medical := maxLike s.max_medical fr.medical
    max_racy := maxLike s.max_racy fr.racy
    max_spoof := maxLike s.max_spoof fr.spoof }

/-- The `is_flagged` check (lines 174-178): any of adult, violence, racy has
rank at least 3 (`POSSIBLE`). -/
def flagPred (fr : FrameScore) : Bool :=
  decide (3 ≤ fr.adult.rank) || decide (3 ≤ fr.violence.rank) || decide (3 ≤ fr.racy.rank)

/-- The body of one iteration of the loop over frames (lines 159-199):
the `try` block scores the frame, appends the successful entry, updates the
maxima, evaluates the flag predicate and possibly appends a flag record; the
`except` block appends an error marker instead.  Saving flagged frames to disk
(lines 188-192) touches only the filesystem and is not modelled. -/
def processFrame {α : Type} (interval_seconds : ℚ)
    (classify : α → Except String SafeSearchResult)
    (st : AnalysisResults) (idx : Nat) (frame : α) : AnalysisResults :=
  match analyze_frame_safety classify frame with
  | .error e =>
    { st with frame_results := st.frame_results ++ [errorEntry idx e] }
  | .ok fr =>
    let entry := okEntry fr idx interval_seconds
    let summ := updateMaxima st.summary fr
    let summ :=
      if flagPred fr then
        { summ with
          flagged_frames := summ.flagged_frames ++
            [{ frame_index := idx
               timestamp_seconds := (idx : ℚ) * interval_seconds
               reasons := entry }] }
      else summ
    { st with frame_results := st.frame_results ++ [entry], summary := summ }

/-- `for idx, frame in enumerate(frames): ...` (line 159) starting at index
`idx`; the loop starts with `idx = 0`. -/
def runFrames {α : Type} (interval_seconds : ℚ)
    (classify : α → Except String SafeSearchResult)
    (st : AnalysisResults) (idx : Nat) : List α → AnalysisResults
  | [] => st
  | f :: rest =>
    runFrames interval_seconds classify (processFrame interval_seconds classify st idx f)
      (idx + 1) rest

/-- The video source as seen through `cv2.VideoCapture` (lines 53-75): whether
it opened, the FPS property (0.0 when unreadable), and the finite sequence of
frames `cap.read()` will deliver. -/
structure VideoCapture (α : Type) where
  opened : Bool
  fps : ℚ
  frames : List α

/-- Python `int()` on a float/rational: truncation toward zero.  (`Rat.den` is
always positive, and `Int.tdiv` truncates toward zero, which matches `int()`
for every sign of the argument.) -/
def pyInt (q : ℚ) : ℤ := Int.tdiv q.num q.den

/-- The `while True: cap.read()` loop of `extract_frames` (lines 60-73),
keeping the frames whose running `frame_count` satisfies
`frame_count % frame_interval == 0`.  When `frame_interval` is `0`, Python's
`%` raises `ZeroDivisionError` on the first iteration.  (Python's `%` and
`Int.emod` agree on being zero, which is all the condition tests.) -/
def extractLoop {α : Type} (frame_interval : ℤ) :
    List α → Nat → Except String (List α)
  | [], _ => .ok []
  | f :: rest, frame_count =>
    if frame_interval = 0 then
      .error "ZeroDivisionError: integer division or modulo by zero"
    else
      match extractLoop frame_interval rest (frame_count + 1) with
      | .error e => .error e
      | .ok tail =>
        .ok (if (frame_count : ℤ) % frame_interval = 0 then f :: tail else tail)

/-- `extract_frames` (lines 41-77): fail if the capture did not open, compute
`frame_interval = int(fps * interval_seconds)`, then run the read loop. -/
def extract_frames {α : Type} (video_path : String) (cap : VideoCapture α)
    (interval_seconds : ℚ) : Except String (List α) :=
  if cap.opened = false then .error ("Error opening video file: " ++ video_path)
  else extractLoop (pyInt (cap.fps * interval_seconds)) cap.frames 0

/-- The `results` dict as first built (lines 138-152), before the frame loop:
`total_frames_analyzed` is already the full number of extracted frames. -/
def initResults (video_path : String) (interval_seconds : ℚ) (now : String)
    (n : Nat) : AnalysisResults :=
  { video_path := video_path
    total_frames_analyzed := n
    interval_seconds := interval_seconds
    timestamp := now
    frame_results := []
    summary := initialSummary }

/-- `analyze_video` (lines 111-201): check the path exists (else raise
`FileNotFoundError`), extract frames (which may raise), build the initial
results dict, then run the per-frame loop.  `path_exists` models
`os.path.exists(video_path)`; `now` models `datetime.now().isoformat()`. -/
def analyze_video {α : Type} (path_exists : Bool) (video_path : String)
    (cap : VideoCapture α) (interval_seconds : ℚ)
    (classify : α → Except String SafeSearchResult) (now : String) :
    Except String AnalysisResults :=
  if path_exists = false then .error ("Video file not found: " ++ video_path)
  else
    match extract_frames video_path cap interval_seconds with
    | .error e => .error e
    | .ok frames =>
      .ok (runFrames interval_seconds classify
        (initResults video_path interval_seconds now frames.length) 0 frames)

/-- The terminal status of `main` (lines 294-304): process exit code 1 when the
analysis raised, else 1 when `flagged_frames` is non-empty (truthy) and 0 when
it is empty.  (JSON/report writing, pure output, is not modelled.) -/
def mainExitCode (res : Except String AnalysisResults) : Nat :=
  match res with
  | .error _ => 1
  | .ok r => if r.summary.flagged_frames.isEmpty then 0 else 1

/-!
Characterization functions.  These restate, frame by frame, what one pass of
the loops above produces; the lemmas below prove them equal to the loops, and
the claim theorems are stated through them.
-/

/-- The single `frame_results` entry appended for frame `idx` (success or
error shape). -/
def entryOf {α : Type} (interval_seconds : ℚ)
    (classify : α → Except String SafeSearchResult) (idx : Nat) (f : α) : FrameEntry :=
  match analyze_frame_safety classify f with
  | .ok fr => okEntry fr idx interval_seconds
  | .error e => errorEntry idx e

/-- The `frame_results` entries produced for a list of frames starting at
index `idx`. -/
def entriesOf {α : Type} (interval_seconds : ℚ)
    (classify : α → Except String SafeSearchResult) : Nat → List α → List FrameEntry
  | _, [] => []
  | idx, f :: rest =>
    entryOf interval_seconds classify idx f ::
      entriesOf interval_seconds classify (idx + 1) rest

/-- The flag records (zero or one) produced for frame `idx`. -/
def flagOf {α : Type} (interval_seconds : ℚ)
    (classify : α → Except String SafeSearchResult) (idx : Nat) (f : α) : List FlagRecord :=
  match analyze_frame_safety classify f with
  | .ok fr =>
    if flagPred fr then
      [{ frame_index := idx
         timestamp_seconds := (idx : ℚ) * interval_seconds
         reasons := okEntry fr idx interval_seconds }]
    else []
  | .error _ => []

/-- The flag records produced for a list of frames starting at index `idx`. -/
def flaggedOf {α : Type} (interval_seconds : ℚ)
    (classify : α → Except String SafeSearchResult) : Nat → List α → List FlagRecord
  | _, [] => []
  | idx, f :: rest =>
    flagOf interval_seconds classify idx f ++
      flaggedOf interval_seconds classify (idx + 1) rest

/-- The rank a frame contributes to the running maximum of category `c`:
its own rank when scoring succeeds, nothing (0) when scoring fails. -/
def scoreRank {α : Type} (classify : α → Except String SafeSearchResult)
    (c : Category) (f : α) : Nat :=
  match analyze_frame_safety classify f with
  | .ok fr => (fr.catOf c).rank
  | .error _ => 0

/-- Maximum rank of category `c` over the successfully scored frames of a
list (0 when there is none). -/
def maxScoredRank {α : Type} (classify : α → Except String SafeSearchResult)
    (c : Category) : List α → Nat
  | [] => 0
  | f :: rest => max (scoreRank classify c f) (maxScoredRank classify c rest)

/-- One step of the running maximum of category `c`. -/
def stepMax {α : Type} (classify : α → Except String SafeSearchResult)
    (c : Category) (m : Likelihood) (f : α) : Likelihood :=
  match analyze_frame_safety classify f with
  | .ok fr => maxLike m (fr.catOf c)
  | .error _ => m

/-- The running maximum of category `c` over a list of frames. -/
def foldMax {α : Type} (classify : α → Except String SafeSearchResult)
    (c : Category) : Likelihood → List α → Likelihood
  | m, [] => m
  | m, f :: rest => foldMax classify c (stepMax classify c m f) rest

/-- Keep the elements whose running counter (starting at `c`) is a multiple of
`s`; the pure content of `extractLoop` once the stride is known non-zero. -/
def sampleAt {α : Type} (s : Nat) : Nat → List α → List α
  | _, [] => []
  | c, f :: rest =>
    if c % s = 0 then f :: sampleAt s (c + 1) rest else sampleAt s (c + 1) rest

/-!  Concrete fixtures used by the witness and counterexample theorems. -/

/-- A one-frame video source at 1 fps. -/
def wCap1 : VideoCapture Nat := ⟨true, 1, [0]⟩

/-- A five-frame video source at 2 fps. -/
def wCap5 : VideoCapture Nat := ⟨true, 2, [0, 1, 2, 3, 4]⟩

/-- A zero-frame video source. -/
def wCapEmpty : VideoCapture Nat := ⟨true, 1, []⟩

/-- A two-frame video source at 1 fps. -/
def wCap2 : VideoCapture Nat := ⟨true, 1, [0, 1]⟩

/-- A classifier answering adult = 3 (POSSIBLE), everything else 1. -/
def clfPossible : Nat → Except String SafeSearchResult :=
  fun _ => Except.ok ⟨3, 1, 1, 1, 1⟩

/-- A classifier answering 0 (UNKNOWN) in every category. -/
def clfUnknown : Nat → Except String SafeSearchResult :=
  fun _ => Except.ok ⟨0, 0, 0, 0, 0⟩

/-- A classifier that fails on frame 1 and answers adult = 3 elsewhere. -/
def clfFailsOn1 : Nat → Except String SafeSearchResult :=
  fun n => if n = 1 then Except.error "boom" else Except.ok ⟨3, 1, 1, 1, 1⟩

/-- A classifier that always fails. -/
def clfBoom : Nat → Except String SafeSearchResult :=
  fun _ => Except.error "boom"

/-!  Basic facts tying the enumeration to the string table and dict. -/

/-- The enumeration is exactly list indexing into `likelihood_names`. -/
theorem likelihoodAt_names (n : Nat) :
    (likelihoodAt n).map Likelihood.name = likelihood_names.get? n := by
  match n with
  | 0 => rfl
  | 1 => rfl
  | 2 => rfl
  | 3 => rfl
  | 4 => rfl
  | 5 => rfl
  | (k + 6) => simp [likelihoodAt, likelihood_names]

/-- `likelihood_levels` never raises `KeyError` on a produced name, and gives
the rank. -/
theorem likelihood_levels_name (l : Likelihood) :
    likelihood_levels l.name = some l.rank := by
  cases l <;> rfl

/-!  One-step projections of `processFrame`. -/

@[simp] theorem processFrame_frame_results {α : Type} (i : ℚ)
    (c : α → Except String SafeSearchResult) (st : AnalysisResults) (idx : Nat) (f : α) :
    (processFrame i c st idx f).frame_results =
      st.frame_results ++ [entryOf i c idx f] := by
  unfold processFrame entryOf
  cases h : analyze_frame_safety c f <;> simp

@[simp] theorem processFrame_flagged {α : Type} (i : ℚ)
    (c : α → Except String SafeSearchResult) (st : AnalysisResults) (idx : Nat) (f : α) :
    (processFrame i c st idx f).summary.flagged_frames =
      st.summary.flagged_frames ++ flagOf i c idx f := by
  unfold processFrame flagOf
  cases h : analyze_frame_safety c f
  · simp
  · simp only [updateMaxima]
    split <;> simp

@[simp] theorem processFrame_maxOf {α : Type} (i : ℚ)
    (c : α → Except String SafeSearchResult) (st : AnalysisResults) (idx : Nat) (f : α)
    (cat : Category) :
    (processFrame i c st idx f).summary.maxOf cat =
      stepMax c cat (st.summary.maxOf cat) f := by
  unfold processFrame stepMax
  cases h : analyze_frame_safety c f
  · simp
  · cases cat <;> simp only [updateMaxima, Summary.maxOf] <;> split <;> rfl

@[simp] theorem processFrame_video_path {α : Type} (i : ℚ)
    (c : α → Except String SafeSearchResult) (st : AnalysisResults) (idx : Nat) (f : α) :
    (processFrame i c st idx f).video_path = st.video_path := by
  unfold processFrame
  cases h : analyze_frame_safety c f <;> simp

@[simp] theorem processFrame_total {α : Type} (i : ℚ)
    (c : α → Except String SafeSearchResult) (st : AnalysisResults) (idx : Nat) (f : α) :
    (processFrame i c st idx f).total_frames_analyzed = st.total_frames_analyzed := by
  unfold processFrame
  cases h : analyze_frame_safety c f <;> simp

@[simp] theorem processFrame_interval {α : Type} (i : ℚ)
    (c : α → Except String SafeSearchResult) (st : AnalysisResults) (idx : Nat) (f : α) :
    (processFrame i c st idx f).interval_seconds = st.interval_seconds := by
  unfold processFrame
  cases h : analyze_frame_safety c f <;> simp

@[simp] theorem processFrame_timestamp {α : Type} (i : ℚ)
    (c : α → Except String SafeSearchResult) (st : AnalysisResults) (idx : Nat) (f : α) :
    (processFrame i c st idx f).timestamp = st.timestamp := by
  unfold processFrame
  cases h : analyze_frame_safety c f <;> simp

/-!  Whole-loop decompositions of `runFrames`. -/

theorem runFrames_frame_results {α : Type} (i : ℚ)
    (c : α → Except String SafeSearchResult) (l : List α) :
    ∀ (st : AnalysisResults) (idx : Nat),
      (runFrames i c st idx l).frame_results =
        st.frame_results ++ entriesOf i c idx l := by
  induction l with
  | nil => intro st idx; simp [runFrames, entriesOf]
  | cons f rest ih =>
    intro st idx
    simp only [runFrames, entriesOf]
    rw [ih]
    simp [List.append_assoc]

theorem runFrames_flagged {α : Type} (i : ℚ)
    (c : α → Except String SafeSearchResult) (l : List α) :
    ∀ (st : AnalysisResults) (idx : Nat),
      (runFrames i c st idx l).summary.flagged_frames =
        st.summary.flagged_frames ++ flaggedOf i c idx l := by
  induction l with
  | nil => intro st idx; simp [runFrames, flaggedOf]
  | cons f rest ih =>
    intro st idx
    simp only [runFrames, flaggedOf]
    rw [ih]
    simp [List.append_assoc]

theorem runFrames_maxOf {α : Type} (i : ℚ)
    (c : α → Except String SafeSearchResult) (l : List α) (cat : Category) :
    ∀ (st : AnalysisResults) (idx : Nat),
      (runFrames i c st idx l).summary.maxOf cat =
        foldMax c cat (st.summary.maxOf cat) l := by
  induction l with
  | nil => intro st idx; simp [runFrames, foldMax]
  | cons f rest ih =>
    intro st idx
    simp only [runFrames, foldMax]
    rw [ih]
    simp

theorem runFrames_video_path {α : Type} (i : ℚ)
    (c : α → Except String SafeSearchResult) (l : List α) :
    ∀ (st : AnalysisResults) (idx : Nat),
      (runFrames i c st idx l).video_path = st.video_path := by
  induction l with
  | nil => intro st idx; simp [runFrames]
  | cons f rest ih => intro st idx; simp only [runFrames]; rw [ih]; simp

theorem runFrames_total {α : Type} (i : ℚ)
    (c : α → Except String SafeSearchResult) (l : List α) :
    ∀ (st : AnalysisResults) (idx : Nat),
      (runFrames i c st idx l).total_frames_analyzed = st.total_frames_analyzed := by
  induction l with
  | nil => intro st idx; simp [runFrames]
  | cons f rest ih => intro st idx; simp only [runFrames]; rw [ih]; simp

theorem runFrames_interval {α : Type} (i : ℚ)
    (c : α → Except String SafeSearchResult) (l : List α) :
    ∀ (st : AnalysisResults) (idx : Nat),
      (runFrames i c st idx l).interval_seconds = st.interval_seconds := by
  induction l with
  | nil => intro st idx; simp [runFrames]
  | cons f rest ih => intro st idx; simp only [runFrames]; rw [ih]; simp

theorem runFrames_timestamp {α : Type} (i : ℚ)
    (c : α → Except String SafeSearchResult) (l : List α) :
    ∀ (st : AnalysisResults) (idx : Nat),
      (runFrames i c st idx l).timestamp = st.timestamp := by
  induction l with
  | nil => intro st idx; simp [runFrames]
  | cons f rest ih => intro st idx; simp only [runFrames]; rw [ih]; simp

/-- `analyze_video` on an existing path with successful extraction is the frame
loop on the extracted frames. -/
theorem analyze_video_ok {α : Type} (vp now : String) (cap : VideoCapture α)
    (i : ℚ) (c : α → Except String SafeSearchResult) (frames : List α)
    (hext : extract_frames vp cap i = Except.ok frames) :
    analyze_video true vp cap i c now =
      Except.ok (runFrames i c (initResults vp i now frames.length) 0 frames) := by
  simp [analyze_video, hext]

/-!  Rank arithmetic of the running maximum. -/

theorem maxLike_rank (a b : Likelihood) : (maxLike a b).rank = max a.rank b.rank := by
  unfold maxLike
  split <;> omega

theorem stepMax_rank {α : Type} (c : α → Except String SafeSearchResult)
    (cat : Category) (m : Likelihood) (f : α) :
    (stepMax c cat m f).rank = max m.rank (scoreRank c cat f) := by
  unfold stepMax scoreRank
  cases h : analyze_frame_safety c f <;> simp [maxLike_rank]

theorem foldMax_rank {α : Type} (c : α → Except String SafeSearchResult)
    (cat : Category) (l : List α) :
    ∀ m : Likelihood, (foldMax c cat m l).rank = max m.rank (maxScoredRank c cat l) := by
  induction l with
  | nil => intro m; simp [foldMax, maxScoredRank]
  | cons f rest ih =>
    intro m
    simp only [foldMax, maxScoredRank]
    rw [ih, stepMax_rank, max_assoc]

theorem maxScoredRank_append {α : Type} (c : α → Except String SafeSearchResult)
    (cat : Category) (l1 l2 : List α) :
    maxScoredRank c cat (l1 ++ l2) =
      max (maxScoredRank c cat l1) (maxScoredRank c cat l2) := by
  induction l1 with
  | nil => simp [maxScoredRank]
  | cons f rest ih =>
    show max (scoreRank c cat f) (maxScoredRank c cat (rest ++ l2)) =
      max (max (scoreRank c cat f) (maxScoredRank c cat rest)) (maxScoredRank c cat l2)
    rw [ih, max_assoc]

/-!  Entry-list facts. -/

theorem entriesOf_length {α : Type} (i : ℚ) (c : α → Except String SafeSearchResult)
    (l : List α) : ∀ idx, (entriesOf i c idx l).length = l.length := by
  induction l with
  | nil => intro idx; rfl
  | cons f rest ih => intro idx; simp only [entriesOf, List.length_cons]; rw [ih]

theorem entriesOf_get {α : Type} (i : ℚ) (c : α → Except String SafeSearchResult)
    (l : List α) : ∀ (idx k : Nat),
      (entriesOf i c idx l).get? k = (l.get? k).map (fun f => entryOf i c (idx + k) f) := by
  induction l with
  | nil => intro idx k; rfl
  | cons f rest ih =>
    intro idx k
    cases k with
    | zero => simp [entriesOf]
    | succ k =>
      simp only [entriesOf, List.get?_cons_succ]
      rw [show idx + (k + 1) = (idx + 1) + k by omega]
      exact ih (idx + 1) k

/-- Every produced entry has one of the two dict shapes; on success the
timestamp is the entry's own index times the sampling interval. -/
theorem entriesOf_shape {α : Type} (i : ℚ) (c : α → Except String SafeSearchResult)
    (l : List α) : ∀ idx e, e ∈ entriesOf i c idx l →
      ((∃ a, e.adult = some a) ∧ (∃ s, e.spoof = some s) ∧ (∃ m, e.medical = some m) ∧
        (∃ v, e.violence = some v) ∧ (∃ r, e.racy = some r) ∧
        e.timestamp_seconds = some ((e.frame_index : ℚ) * i) ∧ e.error = none) ∨
      (e.adult = none ∧ e.spoof = none ∧ e.medical = none ∧ e.violence = none ∧
        e.racy = none ∧ e.timestamp_seconds = none ∧ ∃ msg, e.error = some msg) := by
  induction l with
  | nil => intro idx e he; simp [entriesOf] at he
  | cons f rest ih =>
    intro idx e he
    simp only [entriesOf, List.mem_cons] at he
    rcases he with he | he
    · subst he
      unfold entryOf
      cases h : analyze_frame_safety c f with
      | error msg => right; simp [errorEntry]
      | ok fr => left; simp [okEntry]
    · exact ih (idx + 1) e he

/-!  Flag-record facts. -/

theorem flagOf_index {α : Type} (i : ℚ) (c : α → Except String SafeSearchResult)
    (idx : Nat) (f : α) (r : FlagRecord) (hr : r ∈ flagOf i c idx f) :
    r.frame_index = idx := by
  unfold flagOf at hr
  cases h : analyze_frame_safety c f with
  | error e => rw [h] at hr; simp at hr
  | ok fr =>
    rw [h] at hr
    by_cases hp : flagPred fr = true
    · simp [hp] at hr; rw [hr]
    · simp [hp] at hr

theorem flaggedOf_index_bounds {α : Type} (i : ℚ) (c : α → Except String SafeSearchResult)
    (l : List α) : ∀ idx r, r ∈ flaggedOf i c idx l →
      idx ≤ r.frame_index ∧ r.frame_index < idx + l.length := by
  induction l with
  | nil => intro idx r hr; simp [flaggedOf] at hr
  | cons f rest ih =>
    intro idx r hr
    simp only [flaggedOf, List.mem_append] at hr
    rcases hr with hr | hr
    · rw [flagOf_index i c idx f r hr]; simp
    · have := ih (idx + 1) r hr
      constructor
      · omega
      · simp only [List.length_cons]; omega

/-- The zero-or-one flag records of one frame hold a record for its own index
exactly when the frame scores successfully and meets the flag predicate. -/
theorem flagOf_any_self {α : Type} (i : ℚ) (c : α → Except String SafeSearchResult)
    (idx : Nat) (f : α) :
    (flagOf i c idx f).any (fun r => r.frame_index == idx) =
      (match analyze_frame_safety c f with
       | .ok fr => flagPred fr
       | .error _ => false) := by
  unfold flagOf
  cases h : analyze_frame_safety c f with
  | error e => simp
  | ok fr =>
    by_cases hp : flagPred fr = true
    · simp [hp]
    · simp [hp]

/-- The flagged list holds a record for position `j` of the frame list exactly
when frame `j` scores successfully and meets the flag predicate — decided by
that frame's own score alone. -/
theorem flaggedOf_any {α : Type} (i : ℚ) (c : α → Except String SafeSearchResult)
    (l : List α) : ∀ (idx j : Nat) (f : α), l.get? j = some f →
      (flaggedOf i c idx l).any (fun r => r.frame_index == idx + j) =
        (match analyze_frame_safety c f with
         | .ok fr => flagPred fr
         | .error _ => false) := by
  induction l with
  | nil => intro idx j f hf; simp at hf
  | cons g rest ih =>
    intro idx j f hf
    simp only [flaggedOf, List.any_append]
    cases j with
    | zero =>
      have hgf : g = f := by simpa using hf
      have htail : (flaggedOf i c (idx + 1) rest).any (fun r => r.frame_index == idx + 0) = false := by
        rw [List.any_eq_false]
        intro r hr
        have hb := (flaggedOf_index_bounds i c rest (idx + 1) r hr).1
        simp only [beq_iff_eq]
        omega
      rw [htail, Bool.or_false, hgf]
      rw [show idx + 0 = idx by omega]
      exact flagOf_any_self i c idx f
    | succ j =>
      simp only [List.get?_cons_succ] at hf
      have hhead : (flagOf i c idx g).any (fun r => r.frame_index == idx + (j + 1)) = false := by
        rw [List.any_eq_false]
        intro r hr
        have := flagOf_index i c idx g r hr
        simp only [beq_iff_eq]
        omega
      rw [hhead, Bool.false_or]
      have := ih (idx + 1) j f hf
      rw [show idx + (j + 1) = (idx + 1) + j by omega]
      exact this

/-!  Sampling arithmetic. -/

theorem sampleAt_mod {α : Type} (s : Nat) (l : List α) :
    ∀ c, sampleAt s c l = sampleAt s (c % s) l := by
  induction l with
  | nil => intro c; rfl
  | cons f rest ih =>
    intro c
    have hmm : c % s % s = c % s := Nat.mod_mod_of_dvd c (dvd_refl s)
    have ht : sampleAt s (c + 1) rest = sampleAt s (c % s + 1) rest := by
      rw [ih (c + 1), ih (c % s + 1)]
      have : (c + 1) % s = (c % s + 1) % s := by
        rw [Nat.add_mod c 1 s, Nat.add_mod (c % s) 1 s, hmm]
      rw [this]
    simp only [sampleAt, hmm, ht]

theorem sampleAt_shift {α : Type} (s : Nat) (l : List α) :
    ∀ c, 1 ≤ c → c ≤ s → sampleAt s c l = sampleAt s 0 (l.drop (s - c)) := by
  induction l with
  | nil => intro c h1 h2; simp [sampleAt]
  | cons f rest ih =>
    intro c h1 h2
    by_cases hc : c = s
    · rw [hc]
      have h1s : sampleAt s s (f :: rest) = f :: sampleAt s (s + 1) rest := by
        simp [sampleAt, Nat.mod_self]
      have h2s : sampleAt s 0 ((f :: rest).drop (s - s)) = f :: sampleAt s 1 rest := by
        rw [Nat.sub_self, List.drop_zero]
        simp [sampleAt, Nat.zero_mod]
      rw [h1s, h2s]
      congr 1
      rw [sampleAt_mod s rest (s + 1), sampleAt_mod s rest 1]
      have hmod : (s + 1) % s = 1 % s := by
        rw [Nat.add_mod, Nat.mod_self, Nat.zero_add, Nat.mod_mod_of_dvd 1 (dvd_refl s)]
      rw [hmod]
    · have hlt : c < s := lt_of_le_of_ne h2 hc
      have hcond : ¬ c % s = 0 := by rw [Nat.mod_eq_of_lt hlt]; omega
      have hL : sampleAt s c (f :: rest) = sampleAt s (c + 1) rest := by
        simp only [sampleAt, if_neg hcond]
      rw [hL, ih (c + 1) (by omega) hlt]
      have hdrop : (f :: rest).drop (s - c) = rest.drop (s - (c + 1)) := by
        rw [show s - c = (s - (c + 1)) + 1 by omega]
        exact List.drop_succ_cons
      rw [hdrop]

theorem sampleAt_cons {α : Type} (s : Nat) (hs : 1 ≤ s) (f : α) (rest : List α) :
    sampleAt s 0 (f :: rest) = f :: sampleAt s 0 (rest.drop (s - 1)) := by
  have h0 : sampleAt s 0 (f :: rest) = f :: sampleAt s 1 rest := by
    simp only [sampleAt, Nat.zero_mod, if_pos]
  rw [h0, sampleAt_shift s rest 1 le_rfl hs]

theorem sampleAt_length_aux {α : Type} (s : Nat) (hs : 1 ≤ s) :
    ∀ (n : Nat) (l : List α), l.length ≤ n →
      (sampleAt s 0 l).length = (l.length + s - 1) / s := by
  intro n
  induction n with
  | zero =>
    intro l hl
    have : l = [] := List.eq_nil_of_length_eq_zero (by omega)
    subst this
    simp [sampleAt, Nat.div_eq_of_lt (by omega : s - 1 < s)]
  | succ n ih =>
    intro l hl
    match l with
    | [] => simp [sampleAt, Nat.div_eq_of_lt (by omega : s - 1 < s)]
    | f :: rest =>
      rw [sampleAt_cons s hs]
      simp only [List.length_cons]
      rw [ih (rest.drop (s - 1)) (by rw [List.length_drop]; simp only [List.length_cons] at hl; omega)]
      rw [List.length_drop]
      have hplus : rest.length + 1 + s - 1 = rest.length + s := by omega
      rw [hplus, Nat.add_div_right rest.length (by omega : 0 < s)]
      have hsuff : (rest.length - (s - 1) + s - 1) / s = rest.length / s := by
        by_cases hm : s - 1 ≤ rest.length
        · rw [show rest.length - (s - 1) + s - 1 = rest.length by omega]
        · rw [show rest.length - (s - 1) + s - 1 = s - 1 by omega]
          rw [Nat.div_eq_of_lt (by omega), Nat.div_eq_of_lt (by omega)]
      rw [hsuff]

/-- Length of the sampled list: the ceiling of `length / s`. -/
theorem sampleAt_length {α : Type} (s : Nat) (hs : 1 ≤ s) (l : List α) :
    (sampleAt s 0 l).length = (l.length + s - 1) / s :=
  sampleAt_length_aux s hs l.length l le_rfl

theorem sampleAt_get_aux {α : Type} (s : Nat) (hs : 1 ≤ s) :
    ∀ (n : Nat) (l : List α), l.length ≤ n →
      ∀ k, (sampleAt s 0 l).get? k = l.get? (k * s) := by
  intro n
  induction n with
  | zero =>
    intro l hl k
    have : l = [] := List.eq_nil_of_length_eq_zero (by omega)
    subst this
    simp [sampleAt]
  | succ n ih =>
    intro l hl k
    match l with
    | [] => simp [sampleAt]
    | f :: rest =>
      rw [sampleAt_cons s hs]
      match k with
      | 0 => simp
      | (k + 1) =>
        rw [List.get?_cons_succ]
        rw [ih (rest.drop (s - 1)) (by rw [List.length_drop]; simp only [List.length_cons] at hl; omega) k]
        rw [List.get?_drop]
        have hmul : (k + 1) * s = (s - 1 + k * s) + 1 := by
          rw [Nat.succ_mul]
          have h2 : k * s + s = s - 1 + k * s + 1 := by omega
          omega
        rw [hmul, List.get?_cons_succ]

/-- Element `k` of the sampled list is source element `k * s`. -/
theorem sampleAt_get {α : Type} (s : Nat) (hs : 1 ≤ s) (l : List α) (k : Nat) :
    (sampleAt s 0 l).get? k = l.get? (k * s) :=
  sampleAt_get_aux s hs l.length l le_rfl k

/-!  The extraction loop, bridged to `sampleAt`. -/

theorem extractLoop_ok {α : Type} (fi : ℤ) (hfi : 1 ≤ fi) (l : List α) :
    ∀ c : Nat, extractLoop fi l c = Except.ok (sampleAt fi.toNat c l) := by
  induction l with
  | nil => intro c; rfl
  | cons f rest ih =>
    intro c
    have hfi0 : ¬ fi = 0 := by omega
    have hfin : (fi.toNat : ℤ) = fi := Int.toNat_of_nonneg (by omega)
    have hcast : (c : ℤ) % fi = ((c % fi.toNat : ℕ) : ℤ) := by
      conv_lhs => rw [← hfin]
      exact (Int.natCast_mod c fi.toNat).symm
    have hcond : ((c : ℤ) % fi = 0) ↔ (c % fi.toNat = 0) := by
      rw [hcast, Nat.cast_eq_zero]
    simp only [extractLoop, if_neg hfi0]
    rw [ih (c + 1)]
    show Except.ok (if (c : ℤ) % fi = 0 then f :: sampleAt fi.toNat (c + 1) rest
        else sampleAt fi.toNat (c + 1) rest) =
      Except.ok (sampleAt fi.toNat c (f :: rest))
    by_cases h : c % fi.toNat = 0
    · rw [if_pos (hcond.mpr h)]
      have hres : sampleAt fi.toNat c (f :: rest) = f :: sampleAt fi.toNat (c + 1) rest := by
        simp [sampleAt, h]
      rw [hres]
    · rw [if_neg (fun hh => h (hcond.mp hh))]
      have hres : sampleAt fi.toNat c (f :: rest) = sampleAt fi.toNat (c + 1) rest := by
        simp [sampleAt, h]
      rw [hres]

/-- With a positive stride, `extract_frames` succeeds and is the pure
sampling function. -/
theorem extract_frames_ok {α : Type} (vp : String) (cap : VideoCapture α) (i : ℚ)
    (hop : cap.opened = true) (hs : 1 ≤ pyInt (cap.fps * i)) :
    extract_frames vp cap i =
      Except.ok (sampleAt (pyInt (cap.fps * i)).toNat 0 cap.frames) := by
  unfold extract_frames
  rw [hop]
  simp only [Bool.true_eq_false, if_false]
  exact extractLoop_ok (pyInt (cap.fps * i)) hs cap.frames 0

/-- With stride 0 and at least one source frame, the loop raises
`ZeroDivisionError` (as Python's `%` does). -/
theorem extractLoop_zero {α : Type} (l : List α) (c : Nat) (hl : l ≠ []) :
    extractLoop 0 l c =
      Except.error "ZeroDivisionError: integer division or modulo by zero" := by
  match l with
  | [] => exact absurd rfl hl
  | f :: rest => simp [extractLoop]

/-- Truncation agrees with the floor on non-negative rationals. -/
theorem pyInt_eq_floor (q : ℚ) (h : 0 ≤ q) : pyInt q = ⌊q⌋ := by
  unfold pyInt
  rw [Rat.floor_def]
  exact Int.tdiv_eq_ediv (Rat.num_nonneg.mpr h) (Int.ofNat_nonneg q.den)

/-!  Concrete extraction runs for the fixtures. -/

theorem wCap1_extract : extract_frames "v" wCap1 1 = Except.ok [0] := by
  simp only [extract_frames, wCap1]
  rw [show pyInt ((1 : ℚ) * 1) = 1 from by norm_num [pyInt]]
  decide

theorem wCap2_extract : extract_frames "v" wCap2 1 = Except.ok [0, 1] := by
  simp only [extract_frames, wCap2]
  rw [show pyInt ((1 : ℚ) * 1) = 1 from by norm_num [pyInt]]
  decide

theorem wCap5_extract : extract_frames "v" wCap5 1 = Except.ok [0, 2, 4] := by
  simp only [extract_frames, wCap5]
  rw [show pyInt ((2 : ℚ) * 1) = 2 from by norm_num [pyInt]]
  decide

theorem wCapEmpty_extract : extract_frames "v" wCapEmpty 1 = Except.ok [] := by decide

/-!  Claim C1. -/

/-- C1: a successfully scored frame is in the flagged list iff at least one of
adult, violence, racy has rank ≥ 3 (POSSIBLE) in that frame's own scores —
independently of any other frame's scores (the right-hand side depends only on
this frame's score `fr`); medical and spoof do not occur in `flagPred`. -/
theorem c1_flag_iff {α : Type} (vp now : String) (cap : VideoCapture α) (interval : ℚ)
    (classify : α → Except String SafeSearchResult) (frames : List α)
    (i : Nat) (f : α) (fr : FrameScore)
    (hext : extract_frames vp cap interval = Except.ok frames)
    (hf : frames.get? i = some f)
    (hsc : analyze_frame_safety classify f = Except.ok fr) :
    (analyze_video true vp cap interval classify now).map
        (fun r => r.summary.flagged_frames.any (fun rcd => rcd.frame_index == i)) =
      Except.ok (flagPred fr) := by
  rw [analyze_video_ok vp now cap interval classify frames hext]
  have hany := flaggedOf_any interval classify frames 0 i f hf
  rw [Nat.zero_add] at hany
  show Except.ok (((runFrames interval classify
      (initResults vp interval now frames.length) 0 frames).summary.flagged_frames).any
        (fun rcd => rcd.frame_index == i)) = Except.ok (flagPred fr)
  rw [runFrames_flagged]
  show Except.ok ((([] : List FlagRecord) ++ flaggedOf interval classify 0 frames).any
      (fun rcd => rcd.frame_index == i)) = Except.ok (flagPred fr)
  rw [List.nil_append, hany, hsc]

/-- Witness for C1: a one-frame video whose frame scores adult = POSSIBLE is
flagged. -/
theorem c1_flag_iff_witness :
    extract_frames "v" wCap1 1 = Except.ok [0] ∧
    ([0] : List Nat).get? 0 = some 0 ∧
    analyze_frame_safety clfPossible 0 = Except.ok
      ⟨.POSSIBLE, .VERY_UNLIKELY, .VERY_UNLIKELY, .VERY_UNLIKELY, .VERY_UNLIKELY⟩ ∧
    (analyze_video true "v" wCap1 1 clfPossible "t").map
        (fun r => r.summary.flagged_frames.any (fun rcd => rcd.frame_index == 0)) =
      Except.ok (flagPred
        ⟨.POSSIBLE, .VERY_UNLIKELY, .VERY_UNLIKELY, .VERY_UNLIKELY, .VERY_UNLIKELY⟩) := by
  refine ⟨wCap1_extract, by decide, by decide, ?_⟩
  exact c1_flag_iff "v" "t" wCap1 1 clfPossible [0] 0 0 _ wCap1_extract (by decide) (by decide)

/-!  Claim C2. -/

/-- C2 counterexample: one frame scoring UNKNOWN (rank 0) in every category is
successfully scored, yet the summary's adult maximum stays at the
`VERY_UNLIKELY` initialization (rank 1), not at the true maximum rank 0 of the
scored frames.  So the running maximum does not always equal the maximum rank
among successfully scored frames of the prefix. -/
theorem c2_counterexample :
    (analyze_video true "v" wCap1 1 clfUnknown "t").map
        (fun r => (r.summary.maxOf Category.adult).rank) = Except.ok 1 ∧
    analyze_frame_safety clfUnknown 0 = Except.ok
      ⟨.UNKNOWN, .UNKNOWN, .UNKNOWN, .UNKNOWN, .UNKNOWN⟩ ∧
    maxScoredRank clfUnknown Category.adult [0] = 0 ∧
    (1 : Nat) ≠ 0 := by
  refine ⟨?_, by decide, by decide, by decide⟩
  rw [analyze_video_ok "v" "t" wCap1 1 clfUnknown [0] wCap1_extract]
  decide

/-- C2 (amended): for every prefix of the processed frames and every category,
the summary's running maximum rank (1) equals the maximum of the
`VERY_UNLIKELY` initialization floor and the true maximum rank among the
successfully scored frames of the prefix, (2) is non-decreasing from one
prefix to the next, and (3) the final summary delivered by `analyze_video`
is that value over all frames. -/
theorem c2_monotone_max {α : Type} (vp now : String) (cap : VideoCapture α) (interval : ℚ)
    (classify : α → Except String SafeSearchResult) (frames : List α)
    (c : Category) (n : Nat)
    (hext : extract_frames vp cap interval = Except.ok frames) :
    ((runFrames interval classify (initResults vp interval now frames.length) 0
        (frames.take n)).summary.maxOf c).rank =
      max (Likelihood.rank .VERY_UNLIKELY) (maxScoredRank classify c (frames.take n)) ∧
    ((runFrames interval classify (initResults vp interval now frames.length) 0
        (frames.take n)).summary.maxOf c).rank ≤
      ((runFrames interval classify (initResults vp interval now frames.length) 0
        (frames.take (n + 1))).summary.maxOf c).rank ∧
    (analyze_video true vp cap interval classify now).map
        (fun r => (r.summary.maxOf c).rank) =
      Except.ok (max (Likelihood.rank .VERY_UNLIKELY) (maxScoredRank classify c frames)) := by
  have hinit : (initResults vp interval now frames.length).summary.maxOf c =
      Likelihood.VERY_UNLIKELY := by cases c <;> rfl
  have key : ∀ l : List α,
      ((runFrames interval classify (initResults vp interval now frames.length) 0
        l).summary.maxOf c).rank =
      max (Likelihood.rank .VERY_UNLIKELY) (maxScoredRank classify c l) := by
    intro l
    rw [runFrames_maxOf, foldMax_rank, hinit]
  refine ⟨key (frames.take n), ?_, ?_⟩
  · rw [key (frames.take n), key (frames.take (n + 1))]
    rw [List.take_succ, maxScoredRank_append]
    exact max_le_max le_rfl (le_max_left _ _)
  · rw [analyze_video_ok vp now cap interval classify frames hext]
    show Except.ok (((runFrames interval classify
        (initResults vp interval now frames.length) 0 frames).summary.maxOf c).rank) =
      Except.ok (max (Likelihood.rank .VERY_UNLIKELY) (maxScoredRank classify c frames))
    rw [key frames]

/-- Witness for C2 (amended) at a one-frame video, category adult, prefix 0. -/
theorem c2_monotone_max_witness :
    extract_frames "v" wCap1 1 = Except.ok [0] ∧
    (((runFrames 1 clfPossible (initResults "v" 1 "t" ([0] : List Nat).length) 0
        (([0] : List Nat).take 0)).summary.maxOf Category.adult).rank =
      max (Likelihood.rank .VERY_UNLIKELY)
        (maxScoredRank clfPossible Category.adult (([0] : List Nat).take 0)) ∧
    ((runFrames 1 clfPossible (initResults "v" 1 "t" ([0] : List Nat).length) 0
        (([0] : List Nat).take 0)).summary.maxOf Category.adult).rank ≤
      ((runFrames 1 clfPossible (initResults "v" 1 "t" ([0] : List Nat).length) 0
        (([0] : List Nat).take (0 + 1))).summary.maxOf Category.adult).rank ∧
    (analyze_video true "v" wCap1 1 clfPossible "t").map
        (fun r => (r.summary.maxOf Category.adult).rank) =
      Except.ok (max (Likelihood.rank .VERY_UNLIKELY)
        (maxScoredRank clfPossible Category.adult [0]))) :=
  ⟨wCap1_extract,
    c2_monotone_max "v" "t" wCap1 1 clfPossible [0] Category.adult 0 wCap1_extract⟩

/-!  Claim C3. -/

/-- C3 counterexample: at 2.9 fps and a 1-second interval over a 3-frame
source, the code's stride is `int(2.9) = 2` and it emits 2 frames
(source frames 0 and 2), while the claimed count
`ceil(3 / max(1, round(2.9)))` is 1. -/
theorem c3_counterexample :
    (extract_frames "v" (⟨true, 29/10, [0, 1, 2]⟩ : VideoCapture Nat) 1).map
        List.length = Except.ok 2 ∧
    ((3 : Nat) + (max 1 (round ((29/10 : ℚ) * 1))).toNat - 1) /
        (max 1 (round ((29/10 : ℚ) * 1))).toNat = 1 ∧
    (2 : Nat) ≠ 1 := by
  have hpy : pyInt ((29/10 : ℚ) * 1) = 2 := by
    rw [mul_one, pyInt_eq_floor _ (by norm_num)]
    rw [Int.floor_eq_iff]
    norm_num
  have hround : round ((29/10 : ℚ) * 1) = 3 := by
    rw [mul_one, round_eq]
    rw [show (29/10 : ℚ) + 1/2 = 17/5 from by norm_num]
    rw [Int.floor_eq_iff]
    norm_num
  refine ⟨?_, ?_, by decide⟩
  · simp only [extract_frames]
    rw [hpy]
    decide
  · rw [hround]
    decide

/-- C3 (amended): when the code's stride `int(fps * interval)` is at least 1,
extraction succeeds, the number of emitted frames is
`ceil(total / int(fps * interval))` (written `(total + s - 1) / s` over ℕ),
and emitted frame `k` is source frame `k * int(fps * interval)`.  (The code
truncates with `int`, it does not round, and a stride of 0 is not floored to
1 — see the counterexample and claim C4.) -/
theorem c3_sampling {α : Type} (vp : String) (cap : VideoCapture α) (interval : ℚ)
    (k : Nat) (hop : cap.opened = true) (hs : 1 ≤ pyInt (cap.fps * interval)) :
    (extract_frames vp cap interval).map List.length =
      Except.ok ((cap.frames.length + (pyInt (cap.fps * interval)).toNat - 1) /
        (pyInt (cap.fps * interval)).toNat) ∧
    (extract_frames vp cap interval).map (fun l => l.get? k) =
      Except.ok (cap.frames.get? (k * (pyInt (cap.fps * interval)).toNat)) := by
  have hsN : 1 ≤ (pyInt (cap.fps * interval)).toNat := by omega
  rw [extract_frames_ok vp cap interval hop hs]
  constructor
  · show Except.ok ((sampleAt (pyInt (cap.fps * interval)).toNat 0 cap.frames).length) =
      Except.ok ((cap.frames.length + (pyInt (cap.fps * interval)).toNat - 1) /
        (pyInt (cap.fps * interval)).toNat)
    rw [sampleAt_length _ hsN]
  · show Except.ok ((sampleAt (pyInt (cap.fps * interval)).toNat 0 cap.frames).get? k) =
      Except.ok (cap.frames.get? (k * (pyInt (cap.fps * interval)).toNat))
    rw [sampleAt_get _ hsN]

/-- Witness for C3 (amended): 5 source frames at 2 fps, 1-second interval:
stride 2, so 3 emitted frames and emitted frame 1 is source frame 2. -/
theorem c3_sampling_witness :
    wCap5.opened = true ∧ 1 ≤ pyInt (wCap5.fps * 1) ∧
    ((extract_frames "v" wCap5 1).map List.length =
      Except.ok ((wCap5.frames.length + (pyInt (wCap5.fps * 1)).toNat - 1) /
        (pyInt (wCap5.fps * 1)).toNat) ∧
    (extract_frames "v" wCap5 1).map (fun l => l.get? 1) =
      Except.ok (wCap5.frames.get? (1 * (pyInt (wCap5.fps * 1)).toNat))) := by
  have hs : 1 ≤ pyInt (wCap5.fps * 1) := by
    show 1 ≤ pyInt ((2 : ℚ) * 1)
    rw [show pyInt ((2 : ℚ) * 1) = 2 from by norm_num [pyInt]]
    omega
  exact ⟨rfl, hs, c3_sampling "v" wCap5 1 1 rfl hs⟩

/-!  Claim C4. -/

/-- C4 counterexample: with `fps = 0` (or any product that truncates to 0) the
loop raises `ZeroDivisionError` from `frame_count % 0`; it does not emit every
source frame. -/
theorem c4_counterexample :
    extract_frames "v" (⟨true, 0, [0]⟩ : VideoCapture Nat) 1 =
      Except.error "ZeroDivisionError: integer division or modulo by zero" ∧
    extract_frames "v" (⟨true, 0, [0]⟩ : VideoCapture Nat) 1 ≠ Except.ok [0] := by
  have hpy : pyInt ((0 : ℚ) * 1) = 0 := by norm_num [pyInt]
  constructor
  · simp only [extract_frames]
    rw [hpy]
    decide
  · simp only [extract_frames]
    rw [hpy]
    decide

/-- C4 (amended): when `int(fps * interval_seconds)` is 0 (fps 0/unreadable, or
a product below 1), extraction raises `ZeroDivisionError` at the first frame
instead of emitting every source frame; only a zero-frame source escapes (the
loop body never runs) and yields the empty list. -/
theorem c4_zero_stride {α : Type} (vp : String) (cap : VideoCapture α) (interval : ℚ)
    (hop : cap.opened = true) (h0 : pyInt (cap.fps * interval) = 0) :
    (cap.frames ≠ [] → extract_frames vp cap interval =
      Except.error "ZeroDivisionError: integer division or modulo by zero") ∧
    (cap.frames = [] → extract_frames vp cap interval = Except.ok []) := by
  constructor
  · intro hne
    unfold extract_frames
    rw [hop]
    simp only [Bool.true_eq_false, if_false]
    rw [h0]
    exact extractLoop_zero cap.frames 0 hne
  · intro hnil
    unfold extract_frames
    rw [hop, hnil]
    simp only [Bool.true_eq_false, if_false]
    rfl

/-- Witness for C4 (amended) at fps 0 with one source frame. -/
theorem c4_zero_stride_witness :
    (⟨true, 0, [0]⟩ : VideoCapture Nat).opened = true ∧
    pyInt ((⟨true, 0, [0]⟩ : VideoCapture Nat).fps * 1) = 0 ∧
    ([0] : List Nat) ≠ [] ∧
    extract_frames "v" (⟨true, 0, [0]⟩ : VideoCapture Nat) 1 =
      Except.error "ZeroDivisionError: integer division or modulo by zero" := by
  have h0 : pyInt ((0 : ℚ) * 1) = 0 := by norm_num [pyInt]
  refine ⟨rfl, h0, by decide, ?_⟩
  exact (c4_zero_stride "v" (⟨true, 0, [0]⟩ : VideoCapture Nat) 1 rfl h0).1 (by decide)

/-!  Claim C5. -/

/-- C5: a frame whose classification raises does not abort the pipeline: the
run still returns a results value whose `total_frames_analyzed` is the full
sampled count, whose `frame_results` has one entry per sampled frame with the
error marker (index + message) at the failing position, whose flagged list
has no record for that frame, and whose per-category maxima are those of the
remaining frames (the failing frame is erased). -/
theorem c5_error_containment {α : Type} (vp now : String) (cap : VideoCapture α)
    (interval : ℚ) (classify : α → Except String SafeSearchResult) (frames : List α)
    (i : Nat) (f : α) (emsg : String) (c : Category)
    (hext : extract_frames vp cap interval = Except.ok frames)
    (hf : frames.get? i = some f)
    (he : analyze_frame_safety classify f = Except.error emsg) :
    (analyze_video true vp cap interval classify now).map
        (fun r => r.total_frames_analyzed) = Except.ok frames.length ∧
    (analyze_video true vp cap interval classify now).map
        (fun r => r.frame_results.length) = Except.ok frames.length ∧
    (analyze_video true vp cap interval classify now).map
        (fun r => r.frame_results.get? i) = Except.ok (some (errorEntry i emsg)) ∧
    (analyze_video true vp cap interval classify now).map
        (fun r => r.summary.flagged_frames.any (fun rcd => rcd.frame_index == i)) =
      Except.ok false ∧
    (analyze_video true vp cap interval classify now).map
        (fun r => (r.summary.maxOf c).rank) =
      Except.ok (max (Likelihood.rank .VERY_UNLIKELY)
        (maxScoredRank classify c (frames.eraseIdx i))) := by
  rw [analyze_video_ok vp now cap interval classify frames hext]
  obtain ⟨hlt, hget⟩ := List.get?_eq_some.mp hf
  have hdecomp : frames = frames.take i ++ f :: frames.drop (i + 1) := by
    conv_lhs => rw [← List.take_append_drop i frames]
    congr 1
    rw [List.drop_eq_get_cons hlt, hget]
  refine ⟨?_, ?_, ?_, ?_, ?_⟩
  · show Except.ok ((runFrames interval classify
        (initResults vp interval now frames.length) 0 frames).total_frames_analyzed) =
      Except.ok frames.length
    rw [runFrames_total]
    rfl
  · show Except.ok ((runFrames interval classify
        (initResults vp interval now frames.length) 0 frames).frame_results.length) =
      Except.ok frames.length
    rw [runFrames_frame_results]
    show Except.ok ((([] : List FrameEntry) ++ entriesOf interval classify 0 frames).length) =
      Except.ok frames.length
    rw [List.nil_append, entriesOf_length]
  · show Except.ok ((runFrames interval classify
        (initResults vp interval now frames.length) 0 frames).frame_results.get? i) =
      Except.ok (some (errorEntry i emsg))
    rw [runFrames_frame_results]
    show Except.ok ((([] : List FrameEntry) ++ entriesOf interval classify 0 frames).get? i) =
      Except.ok (some (errorEntry i emsg))
    rw [List.nil_append, entriesOf_get, hf]
    show Except.ok (some (entryOf interval classify (0 + i) f)) =
      Except.ok (some (errorEntry i emsg))
    rw [Nat.zero_add]
    unfold entryOf
    rw [he]
  · have hany := flaggedOf_any interval classify frames 0 i f hf
    rw [Nat.zero_add] at hany
    show Except.ok (((runFrames interval classify
        (initResults vp interval now frames.length) 0 frames).summary.flagged_frames).any
          (fun rcd => rcd.frame_index == i)) = Except.ok false
    rw [runFrames_flagged]
    show Except.ok ((([] : List FlagRecord) ++ flaggedOf interval classify 0 frames).any
        (fun rcd => rcd.frame_index == i)) = Except.ok false
    rw [List.nil_append, hany, he]
  · have hinit : (initResults vp interval now frames.length).summary.maxOf c =
        Likelihood.VERY_UNLIKELY := by cases c <;> rfl
    show Except.ok (((runFrames interval classify
        (initResults vp interval now frames.length) 0 frames).summary.maxOf c).rank) =
      Except.ok (max (Likelihood.rank .VERY_UNLIKELY)
        (maxScoredRank classify c (frames.eraseIdx i)))
    rw [runFrames_maxOf, foldMax_rank, hinit]
    congr 1
    have hsc0 : scoreRank classify c f = 0 := by unfold scoreRank; rw [he]
    rw [show maxScoredRank classify c frames =
        maxScoredRank classify c (frames.take i ++ f :: frames.drop (i + 1)) from by
      rw [← hdecomp]]
    rw [List.eraseIdx_eq_take_drop_succ, maxScoredRank_append, maxScoredRank_append]
    rw [show maxScoredRank classify c (f :: frames.drop (i + 1)) =
        max (scoreRank classify c f) (maxScoredRank classify c (frames.drop (i + 1))) from rfl]
    rw [hsc0, Nat.zero_max]

/-- Witness for C5: two frames, classification fails on frame 1. -/
theorem c5_error_containment_witness :
    extract_frames "v" wCap2 1 = Except.ok [0, 1] ∧
    ([0, 1] : List Nat).get? 1 = some 1 ∧
    analyze_frame_safety clfFailsOn1 1 = Except.error "boom" ∧
    ((analyze_video true "v" wCap2 1 clfFailsOn1 "t").map
        (fun r => r.total_frames_analyzed) = Except.ok ([0, 1] : List Nat).length ∧
    (analyze_video true "v" wCap2 1 clfFailsOn1 "t").map
        (fun r => r.frame_results.length) = Except.ok ([0, 1] : List Nat).length ∧
    (analyze_video true "v" wCap2 1 clfFailsOn1 "t").map
        (fun r => r.frame_results.get? 1) = Except.ok (some (errorEntry 1 "boom")) ∧
    (analyze_video true "v" wCap2 1 clfFailsOn1 "t").map
        (fun r => r.summary.flagged_frames.any (fun rcd => rcd.frame_index == 1)) =
      Except.ok false ∧
    (analyze_video true "v" wCap2 1 clfFailsOn1 "t").map
        (fun r => (r.summary.maxOf Category.adult).rank) =
      Except.ok (max (Likelihood.rank .VERY_UNLIKELY)
        (maxScoredRank clfFailsOn1 Category.adult (([0, 1] : List Nat).eraseIdx 1)))) := by
  refine ⟨wCap2_extract, by decide, by decide, ?_⟩
  exact c5_error_containment "v" "t" wCap2 1 clfFailsOn1 [0, 1] 1 1 "boom" Category.adult
    wCap2_extract (by decide) (by decide)

/-!  Claim C6. -/

/-- C6: a non-existent path fails immediately with `FileNotFoundError`, an
unopenable capture fails with the `ValueError` from `extract_frames` — in both
cases no results value is produced — and any run that does return a results
value returns a full one: one `frame_results` entry per sampled frame. -/
theorem c6_source_unavailable {α : Type} (pe : Bool) (vp now : String)
    (cap : VideoCapture α) (interval : ℚ)
    (classify : α → Except String SafeSearchResult) :
    (pe = false → analyze_video pe vp cap interval classify now =
      Except.error ("Video file not found: " ++ vp)) ∧
    (cap.opened = false → analyze_video true vp cap interval classify now =
      Except.error ("Error opening video file: " ++ vp)) ∧
    (∀ r, analyze_video pe vp cap interval classify now = Except.ok r →
      r.frame_results.length = r.total_frames_analyzed) := by
  refine ⟨?_, ?_, ?_⟩
  · intro hpe
    rw [hpe]
    rfl
  · intro hop
    have hext : extract_frames vp cap interval =
        Except.error ("Error opening video file: " ++ vp) := by
      unfold extract_frames
      rw [hop]
      simp
    show (match extract_frames vp cap interval with
      | Except.error e => Except.error e
      | Except.ok frames => Except.ok (runFrames interval classify
          (initResults vp interval now frames.length) 0 frames)) =
      Except.error ("Error opening video file: " ++ vp)
    rw [hext]
  · intro r hr
    cases pe with
    | false => simp [analyze_video] at hr
    | true =>
      cases hext : extract_frames vp cap interval with
      | error e => simp [analyze_video, hext] at hr
      | ok frames =>
        rw [analyze_video_ok vp now cap interval classify frames hext] at hr
        have hr2 : runFrames interval classify
            (initResults vp interval now frames.length) 0 frames = r := Except.ok.inj hr
        rw [← hr2, runFrames_frame_results, runFrames_total]
        show (([] : List FrameEntry) ++ entriesOf interval classify 0 frames).length =
          (initResults vp interval now frames.length).total_frames_analyzed
        rw [List.nil_append, entriesOf_length]
        rfl

/-- Witness for C6: a missing path fails with `FileNotFoundError` before any
scoring. -/
theorem c6_source_unavailable_witness :
    analyze_video false "v" wCap1 1 clfPossible "t" =
      Except.error ("Video file not found: " ++ "v") :=
  (c6_source_unavailable false "v" "t" wCap1 1 clfPossible).1 rfl

/-!  Claim C8. -/

/-- One processing step ignores the stored timestamp. -/
theorem processFrame_set_timestamp {α : Type} (i : ℚ)
    (c : α → Except String SafeSearchResult) (st : AnalysisResults) (idx : Nat)
    (f : α) (t : String) :
    processFrame i c { st with timestamp := t } idx f =
      { processFrame i c st idx f with timestamp := t } := by
  unfold processFrame
  cases h : analyze_frame_safety c f <;> rfl

/-- The whole frame loop ignores the stored timestamp. -/
theorem runFrames_set_timestamp {α : Type} (i : ℚ)
    (c : α → Except String SafeSearchResult) (l : List α) :
    ∀ (st : AnalysisResults) (idx : Nat) (t : String),
      runFrames i c { st with timestamp := t } idx l =
        { runFrames i c st idx l with timestamp := t } := by
  induction l with
  | nil => intro st idx t; rfl
  | cons f rest ih =>
    intro st idx t
    simp only [runFrames]
    rw [processFrame_set_timestamp, ih]

/-- C8 counterexample: the results dict contains `'timestamp':
datetime.now().isoformat()`, so two runs of the pipeline on the same video
with the same classification responses, started at different wall-clock
times, do not produce identical results structures. -/
theorem c8_counterexample :
    analyze_video true "v" wCapEmpty 1 clfPossible "t1" ≠
      analyze_video true "v" wCapEmpty 1 clfPossible "t2" := by decide

/-- C8 (amended): two runs on the same video with the same deterministic
classification responses produce identical results — including identical
flagged-frame order — in every field except `timestamp`, which records the
wall-clock start time of the run. -/
theorem c8_deterministic {α : Type} (pe : Bool) (vp : String) (cap : VideoCapture α)
    (interval : ℚ) (classify : α → Except String SafeSearchResult)
    (now1 now2 : String) :
    (analyze_video pe vp cap interval classify now1).map
        (fun r => { r with timestamp := "" }) =
      (analyze_video pe vp cap interval classify now2).map
        (fun r => { r with timestamp := "" }) := by
  cases pe with
  | false => rfl
  | true =>
    cases hext : extract_frames vp cap interval with
    | error e =>
      have h1 : analyze_video true vp cap interval classify now1 = Except.error e := by
        simp [analyze_video, hext]
      have h2 : analyze_video true vp cap interval classify now2 = Except.error e := by
        simp [analyze_video, hext]
      rw [h1, h2]
    | ok frames =>
      rw [analyze_video_ok vp now1 cap interval classify frames hext,
        analyze_video_ok vp now2 cap interval classify frames hext]
      have key : ∀ t : String,
          runFrames interval classify (initResults vp interval t frames.length) 0 frames =
            { runFrames interval classify (initResults vp interval "" frames.length)
                0 frames with timestamp := t } := by
        intro t
        rw [show initResults vp interval t frames.length =
            { initResults vp interval "" frames.length with timestamp := t } from rfl]
        exact runFrames_set_timestamp interval classify frames _ 0 t
      rw [key now1, key now2]
      rfl

/-!  Claim C9. -/

/-- C9: for a run that completes with a results value, the process exit status
is 0 exactly when the flagged list is empty ("clean") and 1 exactly when it is
non-empty ("flagged"). -/
theorem c9_exit_status {α : Type} (pe : Bool) (vp now : String) (cap : VideoCapture α)
    (interval : ℚ) (classify : α → Except String SafeSearchResult)
    (r : AnalysisResults)
    (hr : analyze_video pe vp cap interval classify now = Except.ok r) :
    (mainExitCode (analyze_video pe vp cap interval classify now) = 0 ↔
      r.summary.flagged_frames = []) ∧
    (mainExitCode (analyze_video pe vp cap interval classify now) = 1 ↔
      r.summary.flagged_frames ≠ []) := by
  rw [hr]
  unfold mainExitCode
  by_cases h : r.summary.flagged_frames.isEmpty = true
  · have hnil : r.summary.flagged_frames = [] := List.isEmpty_iff.mp h
    simp [h, hnil]
  · have hne : ¬ r.summary.flagged_frames = [] := by
      intro hh
      rw [hh] at h
      exact h rfl
    simp [h, hne]

/-- Witness for C9: an empty video completes cleanly with exit status 0. -/
theorem c9_exit_status_witness :
    analyze_video true "v" wCapEmpty 1 clfPossible "t" =
      Except.ok (initResults "v" 1 "t" 0) ∧
    ((mainExitCode (analyze_video true "v" wCapEmpty 1 clfPossible "t") = 0 ↔
      (initResults "v" 1 "t" 0).summary.flagged_frames = []) ∧
    (mainExitCode (analyze_video true "v" wCapEmpty 1 clfPossible "t") = 1 ↔
      (initResults "v" 1 "t" 0).summary.flagged_frames ≠ [])) := by
  have hr : analyze_video true "v" wCapEmpty 1 clfPossible "t" =
      Except.ok (initResults "v" 1 "t" 0) := by decide
  exact ⟨hr, c9_exit_status true "v" "t" wCapEmpty 1 clfPossible (initResults "v" 1 "t" 0) hr⟩

/-!  Claim C10. -/

/-- C10: every `frame_results` entry has one of exactly two shapes: on success
all five category values plus a timestamp equal to the entry's own frame index
times the sampling interval and no error key; on failure no category values,
no timestamp, and an error message. -/
theorem c10_entry_shapes {α : Type} (vp now : String) (cap : VideoCapture α)
    (interval : ℚ) (classify : α → Except String SafeSearchResult)
    (frames : List α) (r : AnalysisResults) (e : FrameEntry)
    (hext : extract_frames vp cap interval = Except.ok frames)
    (hr : analyze_video true vp cap interval classify now = Except.ok r)
    (he : e ∈ r.frame_results) :
    ((∃ a, e.adult = some a) ∧ (∃ s, e.spoof = some s) ∧ (∃ m, e.medical = some m) ∧
      (∃ v, e.violence = some v) ∧ (∃ rc, e.racy = some rc) ∧
      e.timestamp_seconds = some ((e.frame_index : ℚ) * interval) ∧ e.error = none) ∨
    (e.adult = none ∧ e.spoof = none ∧ e.medical = none ∧ e.violence = none ∧
      e.racy = none ∧ e.timestamp_seconds = none ∧ ∃ msg, e.error = some msg) := by
  rw [analyze_video_ok vp now cap interval classify frames hext] at hr
  have hr2 := Except.ok.inj hr
  rw [← hr2, runFrames_frame_results] at he
  rw [show (initResults vp interval now frames.length).frame_results = [] from rfl,
    List.nil_append] at he
  exact entriesOf_shape interval classify frames 0 e he

/-- Witness for C10: a one-frame run whose only frame fails scoring produces
exactly the error-marker shape. -/
theorem c10_entry_shapes_witness :
    extract_frames "v" wCap1 1 = Except.ok [0] ∧
    analyze_video true "v" wCap1 1 clfBoom "t" = Except.ok
      { video_path := "v", total_frames_analyzed := 1, interval_seconds := 1,
        timestamp := "t", frame_results := [errorEntry 0 "boom"],
        summary := initialSummary } ∧
    errorEntry 0 "boom" ∈ [errorEntry 0 "boom"] ∧
    (((∃ a, (errorEntry 0 "boom").adult = some a) ∧
      (∃ s, (errorEntry 0 "boom").spoof = some s) ∧
      (∃ m, (errorEntry 0 "boom").medical = some m) ∧
      (∃ v, (errorEntry 0 "boom").violence = some v) ∧
      (∃ rc, (errorEntry 0 "boom").racy = some rc) ∧
      (errorEntry 0 "boom").timestamp_seconds =
        some (((errorEntry 0 "boom").frame_index : ℚ) * 1) ∧
      (errorEntry 0 "boom").error = none) ∨
    ((errorEntry 0 "boom").adult = none ∧ (errorEntry 0 "boom").spoof = none ∧
      (errorEntry 0 "boom").medical = none ∧ (errorEntry 0 "boom").violence = none ∧
      (errorEntry 0 "boom").racy = none ∧
      (errorEntry 0 "boom").timestamp_seconds = none ∧
      ∃ msg, (errorEntry 0 "boom").error = some msg)) := by
  have hr : analyze_video true "v" wCap1 1 clfBoom "t" = Except.ok
      { video_path := "v", total_frames_analyzed := 1, interval_seconds := 1,
        timestamp := "t", frame_results := [errorEntry 0 "boom"],
        summary := initialSummary } := by
    rw [analyze_video_ok "v" "t" wCap1 1 clfBoom [0] wCap1_extract]
    decide
  refine ⟨wCap1_extract, hr, by decide, ?_⟩
  exact c10_entry_shapes "v" "t" wCap1 1 clfBoom [0] _ (errorEntry 0 "boom")
    wCap1_extract hr (by decide)
